import Mathlib

/-!
Shallow embedding of the watch-accuracy measurement program (src/src/main.rs):
the NTP socket wrapper error mapping, the capture-instant arithmetic, the
interactive minute disambiguation, and the sqlite `save_to` persistence step,
together with theorems settling the specification claims about them.
-/

namespace Accurate

/-! ## Network layer (src/src/main.rs lines 58–75, 197–205) -/

/-- Kinds of `std::io::Error` a UDP send/receive can produce.  A receive that
hits the 2-second read timeout set in `get_ntp_time` surfaces as `timedOut`
(or `wouldBlock` on unix); any other transport failure is `other`. -/
inductive IoErrorKind
  | timedOut
  | wouldBlock
  | other
deriving DecidableEq

/-- Failure values of the reference-time fetch.  `Network` is `sntpc::Error::Network`,
the only error the repository's socket wrapper ever constructs.  `Timeout` is
modelled from the spec: the spec's error taxonomy (§7) names a distinct
`Timeout` failure for "no response within the bound"; no such variant is
produced anywhere in src. -/
inductive SntpError
  | Network
  | Timeout
deriving DecidableEq

/-- `UdpSocketWrapper::send_to` (main.rs lines 62–67): the result of the raw
socket send is passed through on success and any error is mapped to
`Error::Network`. -/
def UdpSocketWrapper.send_to (r : Except IoErrorKind Nat) : Except SntpError Nat :=
  match r with
  | .ok n => .ok n
  | .error _ => .error .Network

/-- `UdpSocketWrapper::recv_from` (main.rs lines 69–74): the result of the raw
socket receive (size and peer address) is passed through on success and any
error — including the expiry of the 2-second read timeout — is mapped to
`Error::Network`. -/
def UdpSocketWrapper.recv_from (r : Except IoErrorKind (Nat × Nat)) :
    Except SntpError (Nat × Nat) :=
  match r with
  | .ok sa => .ok sa
  | .error _ => .error .Network

/-- The reference timestamp returned by `get_ntp_time` (sntpc `NtpResult`):
whole seconds since epoch and a 32-bit sub-second fraction. -/
structure NtpResultM where
  sec : Nat
  sec_fraction : Nat
deriving DecidableEq

/-! ## Capture-instant arithmetic (main.rs lines 133–140) -/

/-- Millisecond conversion of the 32-bit sub-second fraction (main.rs line 134):
`(ref_time.sec_fraction() as u64) * 1000 / u32::MAX as u64`, with `u32::MAX
= 2^32 - 1` and `/` the truncating (round-toward-zero) integer division. -/
def subsec_ms (frac : Nat) : Nat :=
  frac * 1000 / (2 ^ 32 - 1)

/-- A chrono `DateTime<Utc>` reduced to what the code observes: whole seconds
since epoch (what `timestamp()` returns) and the nanoseconds carried past
that second.  A `frac` in [10^9, 2*10^9) is chrono's representation of a
leap second: those extra nanoseconds do not advance the whole-second
count. -/
structure ChronoDt where
  secs : Nat
  frac : Nat
deriving DecidableEq

/-- `Utc.timestamp_opt(sec, nsecs).single()` (main.rs lines 135–138): a single
valid datetime exactly when `nsecs < 2_000_000_000`; an `nsecs` of at least
10^9 builds a leap-second datetime. -/
def timestamp_opt (sec nsecs : Nat) : Option ChronoDt :=
  if nsecs < 2000000000 then some ⟨sec, nsecs⟩ else none

/-- chrono's `checked_add_signed` (main.rs line 139) for the non-negative
elapsed capture duration, following chrono's documented leap-second
arithmetic (`NaiveTime::overflowing_add_signed`): on a leap second
(`frac ≥ 10^9`) the remaining `2*10^9 - frac` nanoseconds must elapse before
the next second starts, so the leap nanoseconds never advance the
whole-second count; otherwise plain nanosecond addition with carry. -/
def checked_add_signed (dt : ChronoDt) (e : Nat) : ChronoDt :=
  if 1000000000 ≤ dt.frac then
    let rfrac := 2000000000 - dt.frac
    if rfrac ≤ e then
      let total := (dt.secs + 1) * 1000000000 + (e - rfrac)
      ⟨total / 1000000000, total % 1000000000⟩
    else
      ⟨dt.secs, dt.frac + e⟩
  else
    let total := dt.secs * 1000000000 + dt.frac + e
    ⟨total / 1000000000, total % 1000000000⟩

/-- `click_dt` (main.rs lines 135–140): the reference instant rebuilt from
`sec` and the millisecond conversion of the fraction, shifted by the
elapsed capture duration.  The `none` arm is the `.expect` panic, which
never fires: `ms * 1_000_000` is at most 10^9 < 2*10^9. -/
def click_dt (sec frac elapsed_ns : Nat) : ChronoDt :=
  match timestamp_opt sec (subsec_ms frac * 1000000) with
  | some dt => checked_add_signed dt elapsed_ns
  | none => ⟨0, 0⟩

/-- `click_dt.timestamp()`-style whole seconds since epoch of the capture
instant; a pending leap fraction does not advance it. -/
def capture_epoch_sec (sec frac elapsed_ns : Nat) : Nat :=
  (click_dt sec frac elapsed_ns).secs

/-- `click_dt.second()`: the second-within-minute of the capture instant. -/
def capture_second (sec frac elapsed_ns : Nat) : Nat :=
  capture_epoch_sec sec frac elapsed_ns % 60

/-- `click_dt.minute()`: the minute-of-hour of the capture instant. -/
def capture_minute (sec frac elapsed_ns : Nat) : Nat :=
  capture_epoch_sec sec frac elapsed_ns / 60 % 60

/-! ## Interactive minute disambiguation (main.rs lines 142–171) -/

/-- `tm1` (main.rs line 144): label of the minute-before candidate. -/
def tm1 (minute : Nat) : Nat :=
  (minute + 59) % 60

/-- `tp1` (main.rs line 145): label of the minute-after candidate. -/
def tp1 (minute : Nat) : Nat :=
  (minute + 1) % 60

/-- The three candidate minute labels offered by the radio group, in the order
the dialog lists them (main.rs lines 158–160): minute before, minute of,
minute after. -/
def minute_candidates (minute : Nat) : Nat × Nat × Nat :=
  (tm1 minute, minute, tp1 minute)

/-- The operator's tri-state radio selection (main.rs lines 158–160).  The
first button, `before`, is the cursive default. -/
inductive MinuteChoice
  | before
  | of
  | after
deriving DecidableEq

/-- The i32 value stored with each radio button: -60, 0 and +60 relative seconds. -/
def MinuteChoice.val : MinuteChoice → Int
  | .before => -60
  | .of => 0
  | .after => 60

/-- Rust `i32::checked_sub`: the difference when it fits a 32-bit signed
integer, `none` on overflow. -/
def i32_checked_sub (a b : Int) : Option Int :=
  if -(2 ^ 31) ≤ a - b ∧ a - b < 2 ^ 31 then some (a - b) else none

/-- The resolved offset (main.rs lines 169–171):
`minute_group.selection().checked_sub(click_dt.second() as i32)`. -/
def delta_of (choice : MinuteChoice) (second : Nat) : Option Int :=
  i32_checked_sub choice.val (second : Int)

/-- Modelled from the spec: the automatic-mode resolver (§4.3) is one of the
three near-duplicate entry points of the project and is not present under
src; per the spec it derives the drift from the capture instant's
second-within-minute value `s` as `offset = -s` if `s < 30`, else `60 - s`. -/
def automatic_offset (s : Nat) : Int :=
  if s < 30 then -(s : Int) else 60 - (s : Int)

/-! ## Persistence: `save_to` (main.rs lines 77–115) -/

/-- A row of the `measurements` table:
`ts INTEGER PRIMARY KEY, diff INTEGER NOT NULL, sync BOOLEAN, name TEXT NOT NULL,
comment TEXT NULL`. -/
structure Row where
  ts : Nat
  diff : Int
  sync : Bool
  name : String
  comment : String
deriving DecidableEq

/-- What a call to `save_to` produces: the Rust function's return value
(`SQLResult<()>`), the `measurements` table after the call, and whether the
insert failure was printed to stdout (the `Err(e) => println!` arm). -/
structure SaveOutcome where
  result : Except String Unit
  table : List Row
  printedError : Bool

/-- `save_to` (main.rs lines 77–115) on an open connection whose table state is
`table`: the `CREATE TABLE IF NOT EXISTS` is idempotent, the existing rows
are counted and `sync` is forced on when the count is zero, and the insert
is attempted keyed by `ts`.  A primary-key collision makes the insert fail;
the code matches on that failure, prints it, and falls through to `Ok(())`. -/
def save_to (table : List Row) (ts : Nat) (delta : Int) (name comment : String)
    (sync : Bool) : SaveOutcome :=
  let n := table.length
  let sync := sync || n == 0
  if table.any (fun r => r.ts == ts) then
    { result := .ok (), table := table, printedError := true }
  else
    { result := .ok (),
      table := table ++ [⟨ts, delta, sync, name, comment⟩],
      printedError := false }

/-! ## The measurement cycle: `gui` (main.rs lines 117–195) -/

/-- The external events one run of `gui` consumes: the outcome of
`get_ntp_time`, whether the capture dialog's event loop was ended by the
escape key (line 120) rather than the "12" button (line 124), the elapsed
wall time `click.signed_duration_since(start)` in nanoseconds, the radio
selection when the minute dialog is confirmed, and the `measurements`
table state of the database at `args.data`. -/
structure GuiInput where
  fetch : Except SntpError NtpResultM
  escPressed : Bool
  elapsed_ns : Nat
  choice : MinuteChoice
  table : List Row

/-- What one run of `gui` produces: the function's return value, whether the
capture prompt's event loop ran at all, the minute candidates offered,
the `measurements` table afterwards, and the delta shown in the final
dialog (none when `checked_sub` overflowed and nothing was saved). -/
structure GuiOutcome where
  result : Except SntpError Unit
  capturePromptRan : Bool
  candidatesShown : Option (Nat × Nat × Nat)
  table : List Row
  shownDelta : Option Int

/-- `gui` (main.rs lines 117–195).  The reference time is fetched first and a
fetch failure propagates out through `?` before `siv.run()` ever executes,
so no prompt is shown and nothing is stored.  On success the capture dialog
runs — both the escape callback and the "12" button merely quit the event
loop, so the flow continues identically either way — the capture instant is
computed, the three minute candidates are offered, the offset is
`selection - click_dt.second()`, and the record is saved via `save_to` with
the reference seconds `sec` as primary key. -/
def gui (sync : Bool) (name comment : String) (inp : GuiInput) : GuiOutcome :=
  match inp.fetch with
  | .error e =>
    { result := .error e, capturePromptRan := false, candidatesShown := none,
      table := inp.table, shownDelta := none }
  | .ok ref =>
    let s := capture_second ref.sec ref.sec_fraction inp.elapsed_ns
    let m := capture_minute ref.sec ref.sec_fraction inp.elapsed_ns
    match delta_of inp.choice s with
    | some delta =>
      let saved := save_to inp.table ref.sec delta name comment sync
      { result := .ok (), capturePromptRan := true,
        candidatesShown := some (minute_candidates m),
        table := saved.table, shownDelta := some delta }
    | none =>
      { result := .ok (), capturePromptRan := true,
        candidatesShown := some (minute_candidates m),
        table := inp.table, shownDelta := none }

end Accurate

namespace Accurate

/-! ## Shared helper lemmas -/

/-- For any radio selection and any second-of-minute value, the `checked_sub`
at main.rs lines 169–171 never overflows a 32-bit integer, so the resolved
offset is exactly `selection - second`. -/
lemma delta_of_eq (choice : MinuteChoice) (s : Nat) (hs : s < 60) :
    delta_of choice s = some (choice.val - s) := by
  have h1 : -(2 ^ 31) ≤ choice.val - (s : Int) := by
    cases choice <;> simp [MinuteChoice.val] <;> omega
  have h2 : choice.val - (s : Int) < 2 ^ 31 := by
    cases choice <;> simp [MinuteChoice.val] <;> omega
  unfold delta_of i32_checked_sub
  rw [if_pos ⟨h1, h2⟩]

/-- The second-of-minute of the capture instant is below 60. -/
lemma capture_second_lt (sec frac e : Nat) : capture_second sec frac e < 60 :=
  Nat.mod_lt _ (by norm_num)

/-- Whenever the millisecond conversion yields at most 1000 ms — which it does
for every 32-bit fraction — the `timestamp_opt` at main.rs lines 135–138 is
a single valid datetime and the `.expect` never panics. -/
lemma click_dt_eq (sec frac e : Nat) (h : subsec_ms frac ≤ 1000) :
    click_dt sec frac e = checked_add_signed ⟨sec, subsec_ms frac * 1000000⟩ e := by
  unfold click_dt timestamp_opt
  rw [if_pos (by omega)]

/-- Inserting into a table holding no row with the new key appends the row,
with the sync flag or-ed with the emptiness test. -/
lemma save_to_insert (table : List Row) (ts : Nat) (delta : Int)
    (name comment : String) (sync : Bool) (hfree : ∀ r ∈ table, r.ts ≠ ts) :
    save_to table ts delta name comment sync =
      { result := .ok (),
        table := table ++ [⟨ts, delta, sync || table.length == 0, name, comment⟩],
        printedError := false } := by
  have hany : table.any (fun r => r.ts == ts) = false := by
    rw [List.any_eq_false]
    intro r hr
    simpa using hfree r hr
  simp [save_to, hany]

/-- Inserting a key already present leaves the table unchanged, returns
`Ok(())`, and only prints the failure. -/
lemma save_to_collision (table : List Row) (ts : Nat) (delta : Int)
    (name comment : String) (sync : Bool) (hhit : ∃ r ∈ table, r.ts = ts) :
    save_to table ts delta name comment sync =
      { result := .ok (), table := table, printedError := true } := by
  obtain ⟨r, hr, hts⟩ := hhit
  have hany : table.any (fun r => r.ts == ts) = true := by
    rw [List.any_eq_true]
    exact ⟨r, hr, by simp [hts]⟩
  simp [save_to, hany]

end Accurate

namespace Accurate

/-! ## Claims C1, C2 — `save_to` -/

/-- C1 counterexample: appending a record whose timestamp 1000 already exists
in the table does NOT make `save_to` report an error to its caller — the
returned result is `Ok(())` (main.rs lines 106–114 print the insert failure
and fall through to `Ok`), refuting the claim that the call reports a
`StorageError`.  The existing record is indeed left intact. -/
theorem c1_counterexample :
    (save_to [⟨1000, 0, true, "main", ""⟩] 1000 5 "main" "" false).result =
      Except.ok () ∧
    (save_to [⟨1000, 0, true, "main", ""⟩] 1000 5 "main" "" false).table =
      [⟨1000, 0, true, "main", ""⟩] := by
  exact ⟨rfl, by decide⟩

/-- C1 (amended): when a record with the same timestamp primary key already
exists, the insert fails and the existing record is not overwritten, but the
failure is only printed to stdout; `save_to` returns `Ok(())` to its caller
rather than an error. -/
theorem c1_duplicate_swallowed (table : List Row) (ts : Nat) (delta : Int)
    (name comment : String) (sync : Bool) (hhit : ∃ r ∈ table, r.ts = ts) :
    (save_to table ts delta name comment sync).table = table ∧
    (save_to table ts delta name comment sync).result = Except.ok () ∧
    (save_to table ts delta name comment sync).printedError = true := by
  rw [save_to_collision table ts delta name comment sync hhit]
  exact ⟨rfl, rfl, rfl⟩

/-- C1 witness: the amended theorem applied at the concrete duplicate insert. -/
theorem c1_witness :
    (save_to [⟨7, 1, true, "w", "c"⟩] 7 2 "w" "c" true).table =
      [⟨7, 1, true, "w", "c"⟩] :=
  (c1_duplicate_swallowed [⟨7, 1, true, "w", "c"⟩] 7 2 "w" "c" true
    ⟨⟨7, 1, true, "w", "c"⟩, by decide, rfl⟩).1

/-- C2: appending to an empty `measurements` table persists `sync = true`
whatever flag the caller passed (in particular `sync = false`), because of
`let sync = sync || n == 0` at main.rs line 104; appending to a non-empty
table (with a fresh key, so the insert succeeds) persists the caller's flag
unchanged. -/
theorem c2_bootstrap_sync (ts : Nat) (delta : Int) (name comment : String)
    (sync : Bool) (table : List Row) (hne : table ≠ [])
    (hfree : ∀ r ∈ table, r.ts ≠ ts) :
    (save_to [] ts delta name comment sync).table =
      [⟨ts, delta, true, name, comment⟩] ∧
    (save_to table ts delta name comment sync).table =
      table ++ [⟨ts, delta, sync, name, comment⟩] := by
  constructor
  · rw [save_to_insert [] ts delta name comment sync (by simp)]
    simp
  · rw [save_to_insert table ts delta name comment sync hfree]
    obtain ⟨a, t, rfl⟩ := List.exists_cons_of_ne_nil hne
    simp

/-- C2 witness: the theorem at a concrete empty store with `sync = false`
(the stored flag is forced to `true`) and at a concrete one-row store
(the stored flag stays `false`). -/
theorem c2_witness :
    (save_to [] 7 3 "w" "" false).table = [⟨7, 3, true, "w", ""⟩] ∧
    (save_to [⟨5, 0, true, "w", ""⟩] 7 3 "w" "" false).table =
      [⟨5, 0, true, "w", ""⟩] ++ [⟨7, 3, false, "w", ""⟩] :=
  c2_bootstrap_sync 7 3 "w" "" false [⟨5, 0, true, "w", ""⟩] (by decide)
    (by intro r hr; simp at hr; rw [hr]; decide)

/-! ## Claims C4, C5, C6 — offset and capture-instant arithmetic -/

/-- C4: in interactive mode, for every tri-state choice (encoded -60/0/+60)
and every second-within-minute value in [0, 59], the `checked_sub` at
main.rs lines 169–171 succeeds and the resolved offset equals
`chosen_minute_adjustment_seconds - capture_second`. -/
theorem c4_interactive_offset (choice : MinuteChoice) (s : Nat) (hs : s ≤ 59) :
    delta_of choice s = some (choice.val - s) :=
  delta_of_eq choice s (by omega)

/-- C4 witness: choosing the minute-of candidate with capture second 5 yields
offset -5, and choosing the minute-after candidate with capture second 58
yields offset 2. -/
theorem c4_witness :
    delta_of MinuteChoice.of 5 = some (-5) ∧
    delta_of MinuteChoice.after 58 = some 2 := by
  constructor
  · rw [c4_interactive_offset MinuteChoice.of 5 (by norm_num)]
    decide
  · rw [c4_interactive_offset MinuteChoice.after 58 (by norm_num)]
    decide

/-- C5 counterexample: at the extreme fraction `2^32 - 1` the millisecond
conversion yields exactly 1000 ms, so `timestamp_opt(sec, 1_000_000_000)`
builds a leap-second datetime whose epoch second stays `sec` — with
sec = 1000 and zero elapsed the program's capture second is 1000, while the
claim's formula `sec + floor((subsec_ms + elapsed_ms) / 1000)` gives 1001. -/
theorem c5_counterexample :
    capture_epoch_sec 1000 4294967295 0 = 1000 ∧
    1000 + (subsec_ms 4294967295 + 0 / 1000000) / 1000 = 1001 ∧
    (1000 : Nat) ≠ 1001 := by
  refine ⟨rfl, rfl, by decide⟩

/-- C5 (amended): for every reference timestamp whose fraction converts to at
most 999 ms and every non-negative elapsed duration, the capture instant's
whole-second value computed at main.rs lines 133–140 equals
`reference.seconds + floor((subsecond_ms + elapsed_ms) / 1000)` — the whole
elapsed seconds plus one extra second exactly when the sub-second carry
overflows 1000 ms; at the sole fraction converting to exactly 1000 ms
(`frac = 2^32 - 1`) chrono builds a leap-second datetime and the capture
second is `reference.seconds + floor(elapsed_ms / 1000)` — the 1000 ms leap
fraction never advances the second. -/
theorem c5_capture_instant_seconds (sec frac elapsed_ns : Nat) :
    (subsec_ms frac < 1000 →
      capture_epoch_sec sec frac elapsed_ns =
        sec + (subsec_ms frac + elapsed_ns / 1000000) / 1000) ∧
    (subsec_ms frac = 1000 →
      capture_epoch_sec sec frac elapsed_ns =
        sec + elapsed_ns / 1000000 / 1000) := by
  constructor
  · intro h
    unfold capture_epoch_sec
    rw [click_dt_eq sec frac elapsed_ns (by omega)]
    unfold checked_add_signed
    dsimp only
    rw [if_neg (by omega)]
    dsimp only
    omega
  · intro h
    unfold capture_epoch_sec
    rw [click_dt_eq sec frac elapsed_ns (by omega), h]
    unfold checked_add_signed
    dsimp only
    rw [if_pos (by norm_num)]
    by_cases he : 1000000000 ≤ elapsed_ns
    · rw [if_pos (by omega)]
      dsimp only
      omega
    · rw [if_neg (by omega)]
      dsimp only
      omega

/-- C5 witness: the amended theorem at a normal fraction (0 ms, elapsed 2.5 s,
carrying into second 9) and at the leap fraction `2^32 - 1` with elapsed
0.5 s, where the epoch second stays at the reference second. -/
theorem c5_witness :
    capture_epoch_sec 7 0 2500000000 = 9 ∧
    capture_epoch_sec 1000 4294967295 500000000 = 1000 := by
  constructor
  · rw [(c5_capture_instant_seconds 7 0 2500000000).1 (by decide)]
    decide
  · rw [(c5_capture_instant_seconds 1000 4294967295 500000000).2 (by rfl)]

/-- C6: the millisecond conversion at main.rs line 134 is
`fraction * 1000 / (2^32 - 1)` in exact (truncating, round-toward-zero)
integer arithmetic, and for every 32-bit fraction the result lies in
[0, 1000]. -/
theorem c6_subsec_ms_bound (frac : Nat) (h : frac < 2 ^ 32) :
    subsec_ms frac = frac * 1000 / (2 ^ 32 - 1) ∧ subsec_ms frac ≤ 1000 := by
  refine ⟨rfl, ?_⟩
  have h1 : frac ≤ 2 ^ 32 - 1 := by omega
  calc subsec_ms frac = frac * 1000 / (2 ^ 32 - 1) := rfl
    _ ≤ (2 ^ 32 - 1) * 1000 / (2 ^ 32 - 1) :=
        Nat.div_le_div_right (Nat.mul_le_mul_right 1000 h1)
    _ = 1000 := by norm_num

/-- C6 witness: the theorem at the extreme fraction `2^32 - 1`, where the
conversion yields exactly 1000 ms. -/
theorem c6_witness : subsec_ms 4294967295 ≤ 1000 ∧ subsec_ms 4294967295 = 1000 :=
  ⟨(c6_subsec_ms_bound 4294967295 (by norm_num)).2, by rfl⟩

end Accurate

namespace Accurate

/-! ## Claim C3 — offset magnitude -/

/-- C3 counterexample: a concrete interactive run (reference second 0, zero
elapsed, minute-before selected) resolves to offset -60, whose magnitude
exceeds 30, yet resolution succeeds and the record is persisted — there is
no magnitude check anywhere in main.rs lines 169–192, refuting the claim
that such offsets fail resolution. -/
theorem c3_counterexample :
    (gui false "main" "" ⟨Except.ok ⟨0, 0⟩, false, 0, .before, []⟩).table =
      [⟨0, -60, true, "main", ""⟩] ∧
    (gui false "main" "" ⟨Except.ok ⟨0, 0⟩, false, 0, .before, []⟩).shownDelta =
      some (-60) ∧
    ¬(-30 < (-60 : Int) ∧ (-60 : Int) ≤ 30) := by
  refine ⟨by decide, by decide, by decide⟩

/-- C3 (amended): the automatic-mode resolver described by the spec (modelled
here, absent from src) always produces an offset in (-30, +30]; the
interactive mode in src performs no magnitude check — the resolved offset is
exactly `selection - capture_second`, which ranges over [-119, +60] and is
persisted unchecked even when its magnitude exceeds 30. -/
theorem c3_offset_range (s : Nat) (hs : s < 60) (choice : MinuteChoice) :
    (-30 < automatic_offset s ∧ automatic_offset s ≤ 30) ∧
    delta_of choice s = some (choice.val - s) ∧
    -119 ≤ choice.val - (s : Int) ∧ choice.val - (s : Int) ≤ 60 := by
  refine ⟨?_, delta_of_eq choice s hs, ?_, ?_⟩
  · unfold automatic_offset
    split <;> omega
  · cases choice <;> simp [MinuteChoice.val] <;> omega
  · cases choice <;> simp [MinuteChoice.val] <;> omega

/-- C3 witness: the amended theorem at capture second 0 with the minute-before
choice, where the unchecked interactive offset is -60. -/
theorem c3_witness :
    delta_of MinuteChoice.before 0 = some (-60) ∧
    (-30 < automatic_offset 0 ∧ automatic_offset 0 ≤ 30) := by
  have h := c3_offset_range 0 (by norm_num) MinuteChoice.before
  refine ⟨?_, h.1⟩
  rw [h.2.1]
  decide

/-! ## Claim C7 — cancelled capture -/

/-- C7: pressing the escape key during the capture dialog does not abort the
cycle — the escape callback (main.rs line 120) merely quits the event loop
exactly as the capture button does, the flow continues identically
(the outcome is the same whether the session ended by escape or by capture),
and a measurement record IS persisted, contradicting the claim that a
cancelled capture resolves to `None` with no record written. -/
theorem c7_escape_still_persists :
    (gui false "main" "" ⟨Except.ok ⟨1000, 0⟩, true, 0, .before, []⟩).table =
      [⟨1000, -100, true, "main", ""⟩] ∧
    (gui false "main" "" ⟨Except.ok ⟨1000, 0⟩, true, 0, .before, []⟩).result =
      Except.ok () ∧
    gui false "main" "" ⟨Except.ok ⟨1000, 0⟩, true, 0, .before, []⟩ =
      gui false "main" "" ⟨Except.ok ⟨1000, 0⟩, false, 0, .before, []⟩ := by
  refine ⟨by decide, rfl, rfl⟩

/-! ## Claim C8 — network failure taxonomy -/

/-- C8 counterexample: a receive that fails because the 2-second read timeout
expired is mapped by `UdpSocketWrapper::recv_from` (main.rs lines 69–74) to
`Error::Network`, not to a distinct `Timeout` failure — the wrapper collapses
the timeout and transport-failure cases into the same error value. -/
theorem c8_counterexample :
    UdpSocketWrapper.recv_from (Except.error IoErrorKind.timedOut) =
      (Except.error SntpError.Network : Except SntpError (Nat × Nat)) ∧
    (Except.error SntpError.Network : Except SntpError (Nat × Nat)) ≠
      Except.error SntpError.Timeout := by
  refine ⟨rfl, ?_⟩
  intro h
  injection h with h2
  cases h2

/-- C8 (amended): every transport failure on send or receive — including the
absence of a response within the 2-second read timeout — produces the single
`NetworkError` failure (no distinct `Timeout` is ever produced); a failed
fetch makes `gui` return the error immediately, before the capture prompt's
event loop runs, with nothing written to the store and no retry. -/
theorem c8_no_distinct_timeout (k : IoErrorKind) (sync : Bool)
    (name comment : String) (inp : GuiInput) (e : SntpError)
    (hf : inp.fetch = Except.error e) :
    UdpSocketWrapper.send_to (Except.error k) = Except.error SntpError.Network ∧
    UdpSocketWrapper.recv_from (Except.error k) = Except.error SntpError.Network ∧
    gui sync name comment inp =
      { result := Except.error e, capturePromptRan := false,
        candidatesShown := none, table := inp.table, shownDelta := none } := by
  refine ⟨rfl, rfl, ?_⟩
  unfold gui
  rw [hf]

/-- C8 witness: the amended theorem at a concrete timed-out fetch — the error
propagates, the prompt never runs and the store is untouched. -/
theorem c8_witness :
    gui false "main" "" ⟨Except.error SntpError.Network, false, 0, .before, []⟩ =
      { result := Except.error SntpError.Network, capturePromptRan := false,
        candidatesShown := none, table := [], shownDelta := none } :=
  (c8_no_distinct_timeout IoErrorKind.timedOut false "main" ""
    ⟨Except.error SntpError.Network, false, 0, .before, []⟩ SntpError.Network rfl).2.2

end Accurate

namespace Accurate

/-! ## Claims C9, C10 — candidates and persisted key -/

/-- A successful fetch followed by an insert into a table with no colliding
key: the full outcome of `gui`, with the offset `selection - second` and the
reference seconds as the persisted key. -/
lemma gui_ok_insert (sync : Bool) (name comment : String) (ref : NtpResultM)
    (esc : Bool) (e : Nat) (ch : MinuteChoice) (table : List Row)
    (hfree : ∀ r ∈ table, r.ts ≠ ref.sec) :
    gui sync name comment ⟨Except.ok ref, esc, e, ch, table⟩ =
      { result := .ok (), capturePromptRan := true,
        candidatesShown :=
          some (minute_candidates (capture_minute ref.sec ref.sec_fraction e)),
        table := table ++ [⟨ref.sec,
          ch.val - capture_second ref.sec ref.sec_fraction e,
          sync || table.length == 0, name, comment⟩],
        shownDelta := some (ch.val - capture_second ref.sec ref.sec_fraction e) } := by
  simp only [gui]
  rw [delta_of_eq ch _ (capture_second_lt ref.sec ref.sec_fraction e)]
  dsimp only
  rw [save_to_insert table ref.sec _ name comment sync hfree]

/-- A successful fetch whose insert collides on the primary key: the table is
left unchanged. -/
lemma gui_ok_collision (sync : Bool) (name comment : String) (ref : NtpResultM)
    (esc : Bool) (e : Nat) (ch : MinuteChoice) (table : List Row)
    (hhit : ∃ r ∈ table, r.ts = ref.sec) :
    (gui sync name comment ⟨Except.ok ref, esc, e, ch, table⟩).table = table := by
  simp only [gui]
  rw [delta_of_eq ch _ (capture_second_lt ref.sec ref.sec_fraction e)]
  dsimp only
  rw [save_to_collision table ref.sec _ name comment sync hhit]

/-- C9: for every minute-of-hour m in [0, 59] the three candidate labels are
`(m + 59) % 60`, `m` and `(m + 1) % 60` (main.rs lines 144–160), which are
exactly the minute before, the minute of and the minute after with correct
wrap at the hour boundary (m = 0 offers 59 and m = 59 offers 0); and on
every successful fetch the dialog offers exactly these candidates for the
capture instant's minute. -/
theorem c9_minute_candidates (m : Nat) (hm : m < 60) (sync : Bool)
    (name comment : String) (inp : GuiInput) (ref : NtpResultM)
    (hf : inp.fetch = Except.ok ref) :
    minute_candidates m = ((m + 59) % 60, m, (m + 1) % 60) ∧
    tm1 m = (if m = 0 then 59 else m - 1) ∧
    tp1 m = (if m = 59 then 0 else m + 1) ∧
    (gui sync name comment inp).candidatesShown =
      some (minute_candidates
        (capture_minute ref.sec ref.sec_fraction inp.elapsed_ns)) := by
  refine ⟨rfl, ?_, ?_, ?_⟩
  · unfold tm1
    split <;> omega
  · unfold tp1
    split <;> omega
  · simp only [gui, hf]
    cases hdo : delta_of inp.choice
        (capture_second ref.sec ref.sec_fraction inp.elapsed_ns) <;>
      simp [hdo]

/-- C9 witness: the wrap facts at the two hour boundaries, and the candidates
offered by a concrete successful run. -/
theorem c9_witness :
    minute_candidates 0 = (59, 0, 1) ∧ minute_candidates 59 = (58, 59, 0) ∧
    (gui false "main" "" ⟨Except.ok ⟨0, 0⟩, false, 0, .before, []⟩).candidatesShown =
      some (minute_candidates (capture_minute 0 0 0)) := by
  have h0 := c9_minute_candidates 0 (by norm_num) false "main" ""
    ⟨Except.ok ⟨0, 0⟩, false, 0, .before, []⟩ ⟨0, 0⟩ rfl
  have h59 := c9_minute_candidates 59 (by norm_num) false "main" ""
    ⟨Except.ok ⟨0, 0⟩, false, 0, .before, []⟩ ⟨0, 0⟩ rfl
  refine ⟨?_, ?_, h0.2.2.2⟩
  · rw [h0.1]
  · rw [h59.1]

/-- C10: the persisted primary key is the reference timestamp's whole seconds
`sec = ref_time.sec()` (main.rs lines 133, 174–181), not the capture-instant
seconds — every record written by a successful cycle carries `ts = ref.sec`
whatever the elapsed duration and sub-second fraction were — so a second
cycle whose reference fetch falls in the same second collides on the
primary key even when its capture instant differs, and its insert leaves
the table unchanged. -/
theorem c10_ts_reference_seconds (sync : Bool) (name comment : String)
    (ref : NtpResultM) (esc1 esc2 : Bool) (e1 e2 : Nat)
    (ch1 ch2 : MinuteChoice) :
    (∀ r ∈ (gui sync name comment ⟨Except.ok ref, esc1, e1, ch1, []⟩).table,
      r.ts = ref.sec) ∧
    (gui sync name comment ⟨Except.ok ref, esc2, e2, ch2,
        (gui sync name comment ⟨Except.ok ref, esc1, e1, ch1, []⟩).table⟩).table =
      (gui sync name comment ⟨Except.ok ref, esc1, e1, ch1, []⟩).table := by
  have h1 := gui_ok_insert sync name comment ref esc1 e1 ch1 [] (by simp)
  constructor
  · rw [h1]
    intro r hr
    simp at hr
    rw [hr]
  · rw [h1]
    apply gui_ok_collision
    simp

/-- C10 witness: two concrete cycles sharing reference second 0 but with
different elapsed durations and different minute choices — the second
cycle's insert collides and changes nothing. -/
theorem c10_witness :
    (gui false "main" "" ⟨Except.ok ⟨0, 0⟩, false, 5000000000, .of,
        (gui false "main" "" ⟨Except.ok ⟨0, 0⟩, false, 0, .before, []⟩).table⟩).table =
      (gui false "main" "" ⟨Except.ok ⟨0, 0⟩, false, 0, .before, []⟩).table :=
  (c10_ts_reference_seconds false "main" "" ⟨0, 0⟩ false false 0 5000000000
    .before .of).2

end Accurate
